import Mathlib

/-!
Verification development for the dialect-app assignment-and-ledger subsystem
(src/app.py). The Python functions are shallowly embedded as Lean functions:

* `get_next_sentence` (app.py lines 27-66): the Selector. The pandas
  dataframe of sheet records becomes a `List SentenceRecord`; the call
  `available.sample(1)` (uniform random choice from a non-empty frame) is
  modelled by an explicit choice index `k`, with `pickUniform k l` returning
  the element at position `k % l.length` (any value of `k` realises any
  possible random draw, so theorems quantify over `k`).
* `update_global_and_user_stats` (lines 84-106): the Ledger. The two
  worksheets are positional grids (`Sheet = List (List String)`), because
  the code addresses cells positionally (`sheet.cell(row, col)`,
  `update_cell`). `gspread.find` scans cells row-major for the first exact
  match; `int(...)` becomes `parseNat`; a raised exception becomes an
  `Except.error` value; the catch-all `except` around the user lookup
  becomes the fallback branches of `update_user`. Indices are 0-based here,
  so the column the code calls 6 (column F) is index 5.
* `get_user_stats` (lines 68-82): the two nested try/except blocks are
  embedded by making the outcome of the store interaction an explicit input
  (`UserLookup`): outer exception = store unavailable, inner exception =
  user id not found, otherwise the parsed count.
* the module-level submit flow (lines 198-230): `submit_recording`, with
  the result of `upload_to_hf` an explicit boolean input.
* the progress-bar computation (lines 177-180): over `ℚ` (the Python
  floats here are quotients of small integers, exact in this range).
* the read-then-write increment of lines 94-95 as a two-step state machine
  (`rmwStep`) so that interleavings of two concurrent submissions can be
  examined.
-/

/-- A row of the sentences sheet as `get_all_records` presents it: a record
with named columns. Fields carry the names the Python code accesses
(`df[...]` in `get_next_sentence`, `row[...]` in the UI flow). -/
structure SentenceRecord where
  region : String
  sentence_text : String
  global_id : String
  recording_count : Nat
  target_count : Nat
  split : String
  dataset_source : String
deriving DecidableEq

/-- `available.sample(1).iloc[0]` on a possibly-empty dataframe: `none` on
the empty list, otherwise the element at `k % length` for choice index `k`. -/
def pickUniform (k : Nat) : List α → Option α
  | [] => none
  | x :: xs => some ((x :: xs).get ⟨k % (xs.length + 1), Nat.mod_lt _ (Nat.succ_pos _)⟩)

/-- The region mask conjoined with the pending mask of app.py lines 42-45:
`df[region] == region` and `df[recording_count] < df[target_count]`. -/
def pendingB (reg : String) (r : SentenceRecord) : Bool :=
  (r.region == reg) && decide (r.recording_count < r.target_count)

/-- app.py lines 27-66: filter to pending rows of the region with split
"test"; if non-empty pick one at random; otherwise the same with split
"train"; otherwise `None`. `k1`, `k2` are the two random draws. -/
def get_next_sentence (k1 k2 : Nat) (df : List SentenceRecord) (reg : String) :
    Option SentenceRecord :=
  let available_test := df.filter (fun r => pendingB reg r && (r.split == "test"))
  match pickUniform k1 available_test with
  | some selected => some selected
  | none =>
    let available_train := df.filter (fun r => pendingB reg r && (r.split == "train"))
    match pickUniform k2 available_train with
    | some selected => some selected
    | none => none

/-- A worksheet as the Ledger code addresses it: a grid of cells, rows of
strings. Indices are 0-based in this model (gspread is 1-based, so the
column the code calls 6 is index 5 here). -/
abbrev Sheet := List (List String)

/-- Cell read with the out-of-range default `""` (an empty spreadsheet cell). -/
def getAt (d : α) : List α → Nat → α
  | [], _ => d
  | x :: _, 0 => x
  | _ :: xs, n + 1 => getAt d xs n

/-- In-place update of position `n`; out-of-range writes are dropped (every
cell the code writes exists, see the parse hypotheses of the theorems). -/
def setAt : List α → Nat → α → List α
  | [], _, _ => []
  | _ :: xs, 0, v => v :: xs
  | x :: xs, n + 1, v => x :: setAt xs n v

/-- `sheet.cell(r, c).value` (0-based). -/
def cellAt (s : Sheet) (r c : Nat) : String := getAt "" (getAt [] s r) c

/-- `sheet.update_cell(r, c, v)` (0-based). -/
def setCell (s : Sheet) (r c : Nat) (v : String) : Sheet :=
  setAt s r (setAt (getAt [] s r) c v)

/-- The numeric value of a decimal digit character, `none` otherwise. -/
def charDigit? (ch : Char) : Option Nat :=
  if '0' ≤ ch ∧ ch ≤ '9' then some (ch.toNat - '0'.toNat) else none

/-- Accumulate decimal digits; any non-digit character fails. -/
def parseNatFrom : List Char → Nat → Option Nat
  | [], acc => some acc
  | ch :: rest, acc =>
    match charDigit? ch with
    | none => none
    | some dg => parseNatFrom rest (acc * 10 + dg)

/-- Python `int(...)` on a cell value restricted to the non-negative
integers the counters hold: all-digit non-empty strings parse, anything
else (including the empty cell) raises, i.e. returns `none`. -/
def parseNat (s : String) : Option Nat :=
  match s.data with
  | [] => none
  | ch :: rest => parseNatFrom (ch :: rest) 0

/-- `gspread` `find`: scan the grid row-major and return the coordinates of
the first cell whose text equals the query, if any. -/
def findCell : Sheet → String → Option (Nat × Nat)
  | [], _ => none
  | row :: rest, q =>
    match row.findIdx? (fun cell => cell == q) with
    | some c => some (0, c)
    | none =>
      match findCell rest q with
      | some (r, c) => some (r + 1, c)
      | none => none

/-- app.py lines 90-95, step 1 of `update_global_and_user_stats`: find the
cell holding the sentence id, read the cell in column index 5 of that row
(the code: "recording_count is column F (6)"), parse it as an integer and
write back the successor. A failed find (`gspread` raises or the code
dereferences `None`) and a failed `int(...)` parse are uncaught Python
exceptions, embedded as `Except.error`. -/
def update_global (sheet : Sheet) (gid : String) : Except String Sheet :=
  match findCell sheet gid with
  | none => Except.error "CellNotFound"
  | some (r, _) =>
    match parseNat (cellAt sheet r 5) with
    | none => Except.error "ValueError"
    | some v => Except.ok (setCell sheet r 5 (toString (v + 1)))

/-- app.py lines 97-106, step 2 of `update_global_and_user_stats`: look the
user id up in the stats sheet; on success increment the count cell (column
index 1) and overwrite the timestamp cell (column index 2); the catch-all
`except` turns any failure of the lookup-and-parse into appending the new
row `[user_id, 1, timestamp]`. -/
def update_user (users : Sheet) (uid now : String) : Sheet :=
  match findCell users uid with
  | none => users ++ [[uid, "1", now]]
  | some (r, _) =>
    match parseNat (cellAt users r 1) with
    | none => users ++ [[uid, "1", now]]
    | some v => setCell (setCell users r 1 (toString (v + 1))) r 2 now

/-- Outcome of one `update_global_and_user_stats` call: the error it raised
(if any) and the two sheets afterwards. -/
structure LedgerResult where
  err : Option String
  sentences : Sheet
  users : Sheet
deriving DecidableEq

/-- app.py lines 84-106: step 1 then step 2; an exception in step 1 occurs
before any write, so it leaves both sheets untouched and step 2 never runs. -/
def update_global_and_user_stats (sentences users : Sheet) (gid uid now : String) :
    LedgerResult :=
  match update_global sentences gid with
  | Except.error e => ⟨some e, sentences, users⟩
  | Except.ok s2 => ⟨none, s2, update_user users uid now⟩

/-- How one pass of the submit flow in app.py lines 198-230 ends. -/
inductive SubmitOutcome
  | tooShort
  | uploadFailed
  | ledgerError
  | saved
deriving DecidableEq

/-- Result of one pass of the submit flow: how it ended, whether
`upload_to_hf` was reached, and the two sheets afterwards. -/
structure SubmitResult where
  outcome : SubmitOutcome
  uploadAttempted : Bool
  sentences : Sheet
  users : Sheet
deriving DecidableEq

/-- app.py lines 198-230: reject payloads under 5000 bytes before anything
else; otherwise attempt the upload (its success `uploadOk` is an input, the
HF service being external); only on success call
`update_global_and_user_stats`. -/
def submit_recording (audioSize : Nat) (uploadOk : Bool) (sentences users : Sheet)
    (gid uid now : String) : SubmitResult :=
  if audioSize < 5000 then ⟨.tooShort, false, sentences, users⟩
  else if uploadOk then
    let res := update_global_and_user_stats sentences users gid uid now
    ⟨(match res.err with | none => .saved | some _ => .ledgerError), true,
      res.sentences, res.users⟩
  else ⟨.uploadFailed, true, sentences, users⟩

/-- Where one session is inside the read-then-write increment of app.py
lines 94-95: not started, holding the value it read, or done writing. -/
inductive RMWPhase
  | start
  | readDone (v : Nat)
  | done
deriving DecidableEq

/-- Two sessions running the lines 94-95 increment against the same
recording_count cell, whose current value is `counter`. -/
structure RMWState where
  counter : Nat
  p1 : RMWPhase
  p2 : RMWPhase
deriving DecidableEq

/-- One store access of a session: its read (`current_s_val = int(...)`)
or its write (`update_cell(..., current_s_val + 1)`). -/
def rmwPhaseStep (p : RMWPhase) (c : Nat) : RMWPhase × Nat :=
  match p with
  | .start => (.readDone c, c)
  | .readDone v => (.done, v + 1)
  | .done => (.done, c)

/-- Let session 1 (`who = true`) or session 2 (`who = false`) perform its
next store access. -/
def rmwStep (who : Bool) (s : RMWState) : RMWState :=
  if who then
    let pc := rmwPhaseStep s.p1 s.counter
    ⟨pc.2, pc.1, s.p2⟩
  else
    let pc := rmwPhaseStep s.p2 s.counter
    ⟨pc.2, s.p1, pc.1⟩

/-- Run a schedule (an interleaving of the two sessions). -/
def rmwRun (sched : List Bool) (s : RMWState) : RMWState :=
  sched.foldl (fun s w => rmwStep w s) s

/-- app.py line 177: `next_milestone = 100 * ((total // 100) + 1)`. -/
def next_milestone (total : Nat) : Nat := 100 * (total / 100 + 1)

/-- app.py lines 178-180: `progress_percent = min(1.0, (total % 100) / 100)`
then the override to `1.0` at positive multiples of 100. Python float
arithmetic on these quotients of small integers is exact, embedded in `ℚ`. -/
def progress_percent (total : Nat) : ℚ :=
  let p := min 1 (((total % 100 : Nat) : ℚ) / 100)
  if 0 < total ∧ total % 100 = 0 then 1 else p

/-- The progress formula as the spec states it (section 4.3), for
comparison with the code: no `min`, just the mod quotient and the
multiple-of-100 override. -/
def spec_progress_percent (total : Nat) : ℚ :=
  if 0 < total ∧ total % 100 = 0 then 1 else ((total % 100 : Nat) : ℚ) / 100

/-- The milestone formula as the spec states it (section 4.3). -/
def spec_next_milestone (total : Nat) : Nat := 100 * (total / 100 + 1)

/-- Outcome of the store interaction inside `get_user_stats` (app.py lines
68-82): the outer `except` fires (store or network unavailable), the inner
`except` fires (user id not in the sheet), or the count cell is read and
parsed. -/
inductive UserLookup
  | unavailable
  | absent
  | found (count : Nat)
deriving DecidableEq

/-- app.py lines 68-82: both exception paths return 0; otherwise the parsed
count. -/
def get_user_stats : UserLookup → Nat
  | .unavailable => 0
  | .absent => 0
  | .found c => c

theorem pickUniform_eq_none_iff (k : Nat) (l : List α) :
    pickUniform k l = none ↔ l = [] := by
  cases l <;> simp [pickUniform]

theorem pickUniform_mem (k : Nat) (l : List α) (r : α)
    (h : pickUniform k l = some r) : r ∈ l := by
  cases l with
  | nil => simp [pickUniform] at h
  | cons x xs =>
    simp only [pickUniform, Option.some.injEq] at h
    subst h
    exact List.get_mem _ _ _

/-- C1: in any snapshot holding at least one pending "test" record of the
requested region, `get_next_sentence` returns a "test" record (hence never a
"train" record), whichever random draws occur. -/
theorem c1_test_split_priority (k1 k2 : Nat) (df : List SentenceRecord) (reg : String)
    (h : ∃ r ∈ df, r.region = reg ∧ r.recording_count < r.target_count ∧ r.split = "test") :
    ∃ r, get_next_sentence k1 k2 df reg = some r ∧ r.split = "test" ∧ r.split ≠ "train" := by
  obtain ⟨r0, hmem, hreg, hlt, hsplit⟩ := h
  have hfilter : df.filter (fun r => pendingB reg r && (r.split == "test")) ≠ [] := by
    intro hnil
    have h0 : r0 ∈ df.filter (fun r => pendingB reg r && (r.split == "test")) := by
      apply List.mem_filter_of_mem hmem
      simp [pendingB, hreg, hlt, hsplit]
    rw [hnil] at h0
    exact absurd h0 (List.not_mem_nil r0)
  unfold get_next_sentence
  cases hpick : pickUniform k1 (df.filter (fun r => pendingB reg r && (r.split == "test"))) with
  | none => exact absurd ((pickUniform_eq_none_iff _ _).mp hpick) hfilter
  | some sel =>
    refine ⟨sel, by simp [hpick], ?_, ?_⟩
    · have hm := pickUniform_mem _ _ _ hpick
      have := (List.mem_filter.mp hm).2
      simp only [Bool.and_eq_true, beq_iff_eq] at this
      exact this.2
    · have hm := pickUniform_mem _ _ _ hpick
      have := (List.mem_filter.mp hm).2
      simp only [Bool.and_eq_true, beq_iff_eq] at this
      rw [this.2]
      decide

/-- Witness for C1 at a concrete one-record snapshot. -/
theorem c1_test_split_priority_witness :
    ∃ r, get_next_sentence 0 0 [⟨"barisal", "hello", "7", 0, 1, "test", "vashantor"⟩]
        "barisal" = some r ∧ r.split = "test" ∧ r.split ≠ "train" :=
  c1_test_split_priority 0 0 _ _
    ⟨⟨"barisal", "hello", "7", 0, 1, "test", "vashantor"⟩, by decide, rfl, by decide, rfl⟩

/-- C2 counterexample: a snapshot whose only record of the region is pending
but carries the split value "validation". The code checks only the splits
"test" and "train", so `get_next_sentence` returns `none` even though a
record of the region has `recording_count < target_count`. -/
theorem c2_counterexample :
    get_next_sentence 0 0 [⟨"r", "s", "1", 0, 1, "validation", "src"⟩] "r" = none ∧
    ∃ r ∈ ([⟨"r", "s", "1", 0, 1, "validation", "src"⟩] : List SentenceRecord),
      r.region = "r" ∧ r.recording_count < r.target_count := by
  refine ⟨by decide, ⟨"r", "s", "1", 0, 1, "validation", "src"⟩, by decide, rfl, by decide⟩

/-- C2 (amended): provided every record carries split "test" or "train" (the
data-model invariant), `get_next_sentence` returns `none` iff no record of
the region has `recording_count < target_count`. -/
theorem c2_none_iff_region_complete (k1 k2 : Nat) (df : List SentenceRecord) (reg : String)
    (hsplit : ∀ r ∈ df, r.split = "test" ∨ r.split = "train") :
    get_next_sentence k1 k2 df reg = none ↔
      ∀ r ∈ df, r.region = reg → ¬ r.recording_count < r.target_count := by
  have hnone : get_next_sentence k1 k2 df reg = none ↔
      df.filter (fun r => pendingB reg r && (r.split == "test")) = [] ∧
      df.filter (fun r => pendingB reg r && (r.split == "train")) = [] := by
    unfold get_next_sentence
    cases h1 : pickUniform k1 (df.filter (fun r => pendingB reg r && (r.split == "test"))) with
    | some sel =>
      simp only [h1]
      constructor
      · intro h; exact absurd h (by simp)
      · intro ⟨ht, _⟩
        rw [ht] at h1
        simp [pickUniform] at h1
    | none =>
      cases h2 : pickUniform k2 (df.filter (fun r => pendingB reg r && (r.split == "train"))) with
      | some sel =>
        simp only [h1, h2]
        constructor
        · intro h; exact absurd h (by simp)
        · intro ⟨_, ht⟩
          rw [ht] at h2
          simp [pickUniform] at h2
      | none =>
        simp only [h1, h2, true_iff]
        exact ⟨(pickUniform_eq_none_iff _ _).mp h1, (pickUniform_eq_none_iff _ _).mp h2⟩
  rw [hnone, List.filter_eq_nil_iff, List.filter_eq_nil_iff]
  constructor
  · intro ⟨ht, htr⟩ r hmem hreg hlt
    have hp : pendingB reg r = true := by simp [pendingB, hreg, hlt]
    rcases hsplit r hmem with hs | hs
    · exact ht r hmem (by simp [hp, hs])
    · exact htr r hmem (by simp [hp, hs])
  · intro h
    constructor
    · intro r hmem hpred
      simp only [Bool.and_eq_true, beq_iff_eq, pendingB, decide_eq_true_eq] at hpred
      exact h r hmem hpred.1.1 hpred.1.2
    · intro r hmem hpred
      simp only [Bool.and_eq_true, beq_iff_eq, pendingB, decide_eq_true_eq] at hpred
      exact h r hmem hpred.1.1 hpred.1.2

/-- Witness for the amended C2 at a concrete completed snapshot. -/
theorem c2_none_iff_region_complete_witness :
    get_next_sentence 0 0 [⟨"r", "s", "1", 1, 1, "test", "src"⟩] "r" = none ↔
      ∀ r ∈ ([⟨"r", "s", "1", 1, 1, "test", "src"⟩] : List SentenceRecord),
        r.region = "r" → ¬ r.recording_count < r.target_count :=
  c2_none_iff_region_complete 0 0 _ _ (by decide)

/-- C10: every record handed out by `get_next_sentence` comes from the
snapshot, matches the requested region, is pending, and carries split "test"
or "train"; hence a pending record with any other split value is never
assigned. -/
theorem c10_assignment_invariants (k1 k2 : Nat) (df : List SentenceRecord) (reg : String)
    (r : SentenceRecord) (h : get_next_sentence k1 k2 df reg = some r) :
    r ∈ df ∧ r.region = reg ∧ r.recording_count < r.target_count ∧
      (r.split = "test" ∨ r.split = "train") := by
  simp only [get_next_sentence] at h
  cases h1 : pickUniform k1 (df.filter (fun r => pendingB reg r && (r.split == "test"))) with
  | some sel =>
    rw [h1] at h
    simp only [Option.some.injEq] at h
    subst h
    have hm := pickUniform_mem _ _ _ h1
    have hmem := (List.mem_filter.mp hm).1
    have hpred := (List.mem_filter.mp hm).2
    simp only [Bool.and_eq_true, beq_iff_eq, pendingB, decide_eq_true_eq] at hpred
    exact ⟨hmem, hpred.1.1, hpred.1.2, Or.inl hpred.2⟩
  | none =>
    rw [h1] at h
    cases h2 : pickUniform k2 (df.filter (fun r => pendingB reg r && (r.split == "train"))) with
    | some sel =>
      rw [h2] at h
      simp only [Option.some.injEq] at h
      subst h
      have hm := pickUniform_mem _ _ _ h2
      have hmem := (List.mem_filter.mp hm).1
      have hpred := (List.mem_filter.mp hm).2
      simp only [Bool.and_eq_true, beq_iff_eq, pendingB, decide_eq_true_eq] at hpred
      exact ⟨hmem, hpred.1.1, hpred.1.2, Or.inr hpred.2⟩
    | none => rw [h2] at h; exact absurd h (by simp)

/-- Witness for C10 at a concrete snapshot whose only pending record is a
"train" record. -/
theorem c10_assignment_invariants_witness :
    (⟨"r", "s", "1", 0, 2, "train", "src"⟩ : SentenceRecord) ∈
        ([⟨"r", "s", "1", 0, 2, "train", "src"⟩] : List SentenceRecord) ∧
      (⟨"r", "s", "1", 0, 2, "train", "src"⟩ : SentenceRecord).region = "r" ∧
      (⟨"r", "s", "1", 0, 2, "train", "src"⟩ : SentenceRecord).recording_count <
        (⟨"r", "s", "1", 0, 2, "train", "src"⟩ : SentenceRecord).target_count ∧
      ((⟨"r", "s", "1", 0, 2, "train", "src"⟩ : SentenceRecord).split = "test" ∨
        (⟨"r", "s", "1", 0, 2, "train", "src"⟩ : SentenceRecord).split = "train") :=
  c10_assignment_invariants 0 0 [⟨"r", "s", "1", 0, 2, "train", "src"⟩] "r" _ (by decide)

theorem getAt_of_length_le (d : α) (l : List α) (n : Nat) (h : l.length ≤ n) :
    getAt d l n = d := by
  induction l generalizing n with
  | nil => rfl
  | cons x xs ih =>
    cases n with
    | zero => simp at h
    | succ n => exact ih n (Nat.le_of_succ_le_succ h)

theorem length_setAt (l : List α) (n : Nat) (v : α) : (setAt l n v).length = l.length := by
  induction l generalizing n with
  | nil => rfl
  | cons x xs ih =>
    cases n with
    | zero => rfl
    | succ n => simp [setAt, ih]

theorem setAt_of_length_le (l : List α) (n : Nat) (v : α) (h : l.length ≤ n) :
    setAt l n v = l := by
  induction l generalizing n with
  | nil => rfl
  | cons x xs ih =>
    cases n with
    | zero => simp at h
    | succ n => simp [setAt, ih n (Nat.le_of_succ_le_succ h)]

theorem getAt_setAt_self (d : α) (l : List α) (n : Nat) (v : α) (h : n < l.length) :
    getAt d (setAt l n v) n = v := by
  induction l generalizing n with
  | nil => simp at h
  | cons x xs ih =>
    cases n with
    | zero => rfl
    | succ n => exact ih n (Nat.lt_of_succ_lt_succ h)

theorem getAt_setAt_ne (d : α) (l : List α) (n m : Nat) (v : α) (h : m ≠ n) :
    getAt d (setAt l n v) m = getAt d l m := by
  induction l generalizing n m with
  | nil => rfl
  | cons x xs ih =>
    cases n with
    | zero =>
      cases m with
      | zero => exact absurd rfl h
      | succ m => rfl
    | succ n =>
      cases m with
      | zero => rfl
      | succ m => exact ih n m (fun he => h (by rw [he]))

theorem getAt_ne_default_lt (d : α) (l : List α) (n : Nat) (h : getAt d l n ≠ d) :
    n < l.length := by
  by_contra hn
  exact h (getAt_of_length_le d l n (Nat.le_of_not_lt hn))

theorem length_setCell (s : Sheet) (r c : Nat) (v : String) :
    (setCell s r c v).length = s.length := length_setAt _ _ _

theorem getAt_setCell_row (s : Sheet) (r c : Nat) (v : String) (hr : r < s.length) :
    getAt ([] : List String) (setCell s r c v) r = setAt (getAt [] s r) c v := by
  unfold setCell
  exact getAt_setAt_self _ _ _ _ hr

theorem cellAt_setCell_self (s : Sheet) (r c : Nat) (v : String)
    (hr : r < s.length) (hc : c < (getAt [] s r).length) :
    cellAt (setCell s r c v) r c = v := by
  unfold cellAt
  rw [getAt_setCell_row _ _ _ _ hr]
  exact getAt_setAt_self _ _ _ _ hc

theorem cellAt_setCell_ne (s : Sheet) (r c : Nat) (v : String) (i j : Nat)
    (h : ¬(i = r ∧ j = c)) :
    cellAt (setCell s r c v) i j = cellAt s i j := by
  unfold cellAt setCell
  by_cases hi : i = r
  · subst hi
    have hj : j ≠ c := fun he => h ⟨rfl, he⟩
    by_cases hr : i < s.length
    · rw [getAt_setAt_self _ _ _ _ hr, getAt_setAt_ne _ _ _ _ _ hj]
    · rw [setAt_of_length_le _ _ _ (Nat.le_of_not_lt hr)]
  · rw [getAt_setAt_ne _ _ _ _ _ hi]

theorem parseNat_ne_empty (s : String) (v : Nat) (h : parseNat s = some v) : s ≠ "" := by
  intro he
  subst he
  exact Option.noConfusion h

/-- C3 counterexample: a sheet laid out exactly as the schema order the spec
states (region, sentence_text, id, recording_count, target_count, split,
dataset_source). The row is resolvable by its id "7" (found at column index
2), yet `update_global` reads column index 5 — under this schema the split
cell "test" — and fails parsing it as an integer, so no cell (in particular
not the recording_count cell at index 3) is incremented. -/
theorem c3_counterexample :
    findCell [["rajshahi", "hello", "7", "0", "5", "test", "vashantor"]] "7" = some (0, 2) ∧
    update_global [["rajshahi", "hello", "7", "0", "5", "test", "vashantor"]] "7" =
      Except.error "ValueError" := by
  exact ⟨by decide, rfl⟩

/-- C3 (amended): `update_global` addresses recording_count at column index
5 (the column the code calls F, i.e. 6 in 1-based terms), not at the
position the schema order in the spec implies. For every row resolvable by
its id whose column-5 cell parses as an integer `v`, the update succeeds,
that cell becomes `v + 1`, and every other cell of the sheet is unchanged. -/
theorem c3_increments_column_six (sheet : Sheet) (gid : String) (r c v : Nat)
    (hf : findCell sheet gid = some (r, c))
    (hv : parseNat (cellAt sheet r 5) = some v) :
    ∃ s2, update_global sheet gid = Except.ok s2 ∧
      cellAt s2 r 5 = toString (v + 1) ∧
      ∀ i j, ¬(i = r ∧ j = 5) → cellAt s2 i j = cellAt sheet i j := by
  have hne : cellAt sheet r 5 ≠ "" := parseNat_ne_empty _ _ hv
  have hc5 : 5 < (getAt [] sheet r).length := getAt_ne_default_lt _ _ _ hne
  have hr : r < sheet.length := by
    by_contra hrn
    have hrow : getAt ([] : List String) sheet r = [] :=
      getAt_of_length_le _ _ _ (Nat.le_of_not_lt hrn)
    rw [hrow] at hc5
    simp at hc5
  refine ⟨setCell sheet r 5 (toString (v + 1)), ?_, ?_, ?_⟩
  · simp only [update_global, hf, hv]
  · exact cellAt_setCell_self _ _ _ _ hr hc5
  · intro i j hij
    exact cellAt_setCell_ne _ _ _ _ _ _ hij

/-- Witness for the amended C3 at a concrete sheet whose column-5 cell
holds "3". -/
theorem c3_increments_column_six_witness :
    ∃ s2, update_global [["rajshahi", "hello", "7", "vashantor", "test", "3", "5"]] "7" =
        Except.ok s2 ∧
      cellAt s2 0 5 = toString (3 + 1) ∧
      ∀ i j, ¬(i = 0 ∧ j = 5) → cellAt s2 i j =
        cellAt [["rajshahi", "hello", "7", "vashantor", "test", "3", "5"]] i j :=
  c3_increments_column_six _ "7" 0 2 3 (by decide) (by decide)

/-- C4: the two not-found cases of `update_global_and_user_stats` take
distinct paths. An unresolvable sentence id raises an error and leaves the
user sheet untouched (no row appended). When the sentence update succeeds,
an absent user id benignly appends the row `[userID, 1, now]`, while a
present user id (with a readable count cell and a timestamp cell) appends
nothing: the count cell becomes its successor and the timestamp cell
becomes `now`. -/
theorem c4_two_notfound_paths (sentences users : Sheet) (gid uid now : String) :
    (findCell sentences gid = none →
        (update_global_and_user_stats sentences users gid uid now).err =
          some "CellNotFound" ∧
        (update_global_and_user_stats sentences users gid uid now).users = users) ∧
    ((∃ s2, update_global sentences gid = Except.ok s2) →
      (findCell users uid = none →
          (update_global_and_user_stats sentences users gid uid now).err = none ∧
          (update_global_and_user_stats sentences users gid uid now).users =
            users ++ [[uid, "1", now]]) ∧
      (∀ r c v, findCell users uid = some (r, c) →
          parseNat (cellAt users r 1) = some v →
          2 < (getAt [] users r).length →
          (update_global_and_user_stats sentences users gid uid now).err = none ∧
          (update_global_and_user_stats sentences users gid uid now).users.length =
            users.length ∧
          cellAt ((update_global_and_user_stats sentences users gid uid now).users) r 1 =
            toString (v + 1) ∧
          cellAt ((update_global_and_user_stats sentences users gid uid now).users) r 2 =
            now)) := by
  constructor
  · intro hnf
    have hg : update_global sentences gid = Except.error "CellNotFound" := by
      simp only [update_global, hnf]
    simp [update_global_and_user_stats, hg]
  · intro ⟨s2, hok⟩
    constructor
    · intro hnf
      simp [update_global_and_user_stats, hok, update_user, hnf]
    · intro r c v hfc hparse hlen
      have hr : r < users.length := by
        by_contra hrn
        have hrow : getAt ([] : List String) users r = [] :=
          getAt_of_length_le _ _ _ (Nat.le_of_not_lt hrn)
        rw [hrow] at hlen
        simp at hlen
      have hc1 : 1 < (getAt [] users r).length := Nat.lt_of_succ_lt hlen
      have huser : update_user users uid now =
          setCell (setCell users r 1 (toString (v + 1))) r 2 now := by
        simp only [update_user, hfc, hparse]
      refine ⟨?_, ?_, ?_, ?_⟩
      · simp [update_global_and_user_stats, hok]
      · simp only [update_global_and_user_stats, hok, huser, length_setCell]
      · simp only [update_global_and_user_stats, hok, huser]
        rw [cellAt_setCell_ne _ _ _ _ _ _ (by simp)]
        exact cellAt_setCell_self _ _ _ _ hr hc1
      · simp only [update_global_and_user_stats, hok, huser]
        apply cellAt_setCell_self
        · rw [length_setCell]
          exact hr
        · rw [getAt_setCell_row _ _ _ _ hr, length_setAt]
          exact hlen

/-- Witness for C4: the three branches at concrete sheets — an
unresolvable sentence id, a new user, and an existing user. -/
theorem c4_two_notfound_paths_witness :
    ((update_global_and_user_stats [["x", "y", "9", "a", "b", "2", "c"]]
        [["u1", "4", "old"]] "7" "u1" "t0").err = some "CellNotFound" ∧
      (update_global_and_user_stats [["x", "y", "9", "a", "b", "2", "c"]]
        [["u1", "4", "old"]] "7" "u1" "t0").users = [["u1", "4", "old"]]) ∧
    ((update_global_and_user_stats [["x", "y", "7", "a", "b", "2", "c"]]
        ([] : Sheet) "7" "u1" "t0").err = none ∧
      (update_global_and_user_stats [["x", "y", "7", "a", "b", "2", "c"]]
        ([] : Sheet) "7" "u1" "t0").users = ([] : Sheet) ++ [["u1", "1", "t0"]]) ∧
    ((update_global_and_user_stats [["x", "y", "7", "a", "b", "2", "c"]]
        [["u1", "4", "old"]] "7" "u1" "t0").err = none ∧
      (update_global_and_user_stats [["x", "y", "7", "a", "b", "2", "c"]]
        [["u1", "4", "old"]] "7" "u1" "t0").users.length =
        ([["u1", "4", "old"]] : Sheet).length ∧
      cellAt ((update_global_and_user_stats [["x", "y", "7", "a", "b", "2", "c"]]
        [["u1", "4", "old"]] "7" "u1" "t0").users) 0 1 = toString (4 + 1) ∧
      cellAt ((update_global_and_user_stats [["x", "y", "7", "a", "b", "2", "c"]]
        [["u1", "4", "old"]] "7" "u1" "t0").users) 0 2 = "t0") :=
  ⟨(c4_two_notfound_paths [["x", "y", "9", "a", "b", "2", "c"]]
      [["u1", "4", "old"]] "7" "u1" "t0").1 (by decide),
   ((c4_two_notfound_paths [["x", "y", "7", "a", "b", "2", "c"]]
      ([] : Sheet) "7" "u1" "t0").2
      ⟨[["x", "y", "7", "a", "b", "3", "c"]], rfl⟩).1 (by decide),
   ((c4_two_notfound_paths [["x", "y", "7", "a", "b", "2", "c"]]
      [["u1", "4", "old"]] "7" "u1" "t0").2
      ⟨[["x", "y", "7", "a", "b", "3", "c"]], rfl⟩).2 0 0 4 (by decide) (by decide)
      (by decide)⟩

/-- C5: when the upload fails, the submit flow leaves both sheets exactly
as they were — neither the sentence counter nor the user counter is
touched, so the sentence stays selectable — and the outcome reports the
failed upload. -/
theorem c5_no_ledger_on_upload_failure (audioSize : Nat) (sentences users : Sheet)
    (gid uid now : String) (h : 5000 ≤ audioSize) :
    submit_recording audioSize false sentences users gid uid now =
      ⟨SubmitOutcome.uploadFailed, true, sentences, users⟩ := by
  simp [submit_recording, Nat.not_lt.mpr h]

/-- Witness for C5 at a concrete failed upload. -/
theorem c5_no_ledger_on_upload_failure_witness :
    submit_recording 5000 false [["x", "y", "7", "a", "b", "2", "c"]]
        [["u1", "4", "old"]] "7" "u1" "t0" =
      ⟨SubmitOutcome.uploadFailed, true, [["x", "y", "7", "a", "b", "2", "c"]],
        [["u1", "4", "old"]]⟩ :=
  c5_no_ledger_on_upload_failure 5000 _ _ _ _ _ (by decide)

/-- C8: a payload under 5000 bytes is rejected before the pipeline — no
upload is attempted and both sheets are untouched; a payload of 5000 bytes
or more passes the gate and reaches the upload. -/
theorem c8_minimum_size_gate (audioSize : Nat) (uploadOk : Bool) (sentences users : Sheet)
    (gid uid now : String) :
    (audioSize < 5000 →
        submit_recording audioSize uploadOk sentences users gid uid now =
          ⟨SubmitOutcome.tooShort, false, sentences, users⟩) ∧
    (5000 ≤ audioSize →
        (submit_recording audioSize uploadOk sentences users gid uid now).uploadAttempted =
          true) := by
  constructor
  · intro h
    simp [submit_recording, h]
  · intro h
    simp only [submit_recording, Nat.not_lt.mpr h, if_false]
    cases uploadOk <;> simp

/-- Witness for C8 at 4999 and 5000 bytes. -/
theorem c8_minimum_size_gate_witness :
    (submit_recording 4999 true [["x", "y", "7", "a", "b", "2", "c"]]
        [["u1", "4", "old"]] "7" "u1" "t0" =
      ⟨SubmitOutcome.tooShort, false, [["x", "y", "7", "a", "b", "2", "c"]],
        [["u1", "4", "old"]]⟩) ∧
    (submit_recording 5000 true [["x", "y", "7", "a", "b", "2", "c"]]
        [["u1", "4", "old"]] "7" "u1" "t0").uploadAttempted = true :=
  ⟨(c8_minimum_size_gate 4999 true _ _ _ _ _).1 (by decide),
   (c8_minimum_size_gate 5000 true _ _ _ _ _).2 (by decide)⟩

/-- C6 counterexample: the increments are not implemented with an atomic
primitive. Under the interleaving read-read-write-write of two sessions
running the lines 94-95 read-then-write against a counter at 0, both
sessions complete but the counter ends at 1 — an update is lost, which an
atomic or conditional increment would make impossible. -/
theorem c6_counterexample :
    ¬ (∀ sched : List Bool,
        (rmwRun sched ⟨0, RMWPhase.start, RMWPhase.start⟩).p1 = RMWPhase.done →
        (rmwRun sched ⟨0, RMWPhase.start, RMWPhase.start⟩).p2 = RMWPhase.done →
        (rmwRun sched ⟨0, RMWPhase.start, RMWPhase.start⟩).counter = 2) := by
  intro h
  exact absurd (h [true, false, true, false] (by decide) (by decide)) (by decide)

/-- C6 (amended): the counter increments of `update_global_and_user_stats`
are a plain read-then-write, so a lost update is possible: interleaving the
reads of both sessions before either write drops one of the two concurrent
increments (the counter rises from 0 to 1, not 2). -/
theorem c6_lost_update_interleaving :
    rmwRun [true, false, true, false] ⟨0, RMWPhase.start, RMWPhase.start⟩ =
      ⟨1, RMWPhase.done, RMWPhase.done⟩ := by decide

/-- C7: the displayed progress is exactly the formula the spec states —
`milestone = 100 * (floor(total / 100) + 1)` and
`percent = (total mod 100) / 100` with the override to 1 at positive
multiples of 100 (the `min` in the code never bites) — including the three
boundary cases total = 0, 100, 150. -/
theorem c7_progress_formula (total : Nat) :
    next_milestone total = spec_next_milestone total ∧
    progress_percent total = spec_progress_percent total ∧
    progress_percent 0 = 0 ∧ next_milestone 0 = 100 ∧
    progress_percent 100 = 1 ∧ next_milestone 100 = 200 ∧
    progress_percent 150 = 1 / 2 ∧ next_milestone 150 = 200 := by
  refine ⟨rfl, ?_, ?_, rfl, ?_, rfl, ?_, rfl⟩
  · unfold progress_percent spec_progress_percent
    have hlt : total % 100 < 100 := Nat.mod_lt _ (by norm_num)
    have hle : (((total % 100 : Nat) : ℚ)) / 100 ≤ 1 := by
      rw [div_le_one (by norm_num : (0 : ℚ) < 100)]
      exact_mod_cast Nat.le_of_lt (Nat.lt_of_lt_of_le hlt (by norm_num))
    simp [min_eq_right hle]
  · norm_num [progress_percent]
  · norm_num [progress_percent]
  · norm_num [progress_percent]

/-- C9 counterexample: `get_user_stats` returns the same value 0 for a
store/lookup failure as for a genuinely absent user, so the zero result is
not distinguishable from the legitimate new-user result. -/
theorem c9_counterexample :
    get_user_stats UserLookup.unavailable = 0 ∧
    get_user_stats UserLookup.absent = 0 ∧
    ¬ get_user_stats UserLookup.unavailable ≠ get_user_stats UserLookup.absent := by
  decide

/-- C9 (amended): a zero from `get_user_stats` conflates three situations —
store unavailable, user absent, and a user whose stored count is 0 — and
nothing else; the caller cannot tell a failure from a new user. -/
theorem c9_zero_conflates_failure_and_new_user (u : UserLookup) :
    get_user_stats u = 0 ↔
      u = UserLookup.unavailable ∨ u = UserLookup.absent ∨ u = UserLookup.found 0 := by
  cases u <;> simp [get_user_stats, eq_comm]
